import Mathlib

/-!
Verification development for the mission-ctrl build supervisor.

The worker-status registry is embedded from `src/src/state/workers.js`.
The saga coroutines (`startWatcher`, `transpile`, `initTranspiler`) live in
modules that are not part of the sources at hand (only their tests are), so
they are modelled from the specification as explicit suspension-point state
machines; a generator's `next(v)` call is one application of the step
function, and a run over a list of resume values yields the trace of
observable events (yielded effects, child-process forks, termination).

Machine conventions: JavaScript `undefined`/absent record fields are
`Option.none`; an operation that would throw a `TypeError` (such as
`Immutable.Map.update` merging into a missing entry) returns `none` at the
`Option` level; `Immutable.Map` is an association list with unique keys.
-/

set_option autoImplicit false

namespace ShipYard

/-! ### Action/event model (from src/src/state/workers.js) -/

def BUSY : String := "ship-yard/workers/BUSY"

def DONE : String := "ship-yard/workers/DONE"

def ERROR : String := "ship-yard/workers/ERROR"

def OFFLINE : String := "ship-yard/workers/OFFLINE"

def READY : String := "ship-yard/workers/READY"

def STOP : String := "ship-yard/workers/STOP"

def WORKER_BUNDLER : String := "ship-yard/workers/WORKER_BUNDLER"

def WORKER_DEV_SERVER : String := "ship-yard/workers/WORKER_DEV_SERVER"

def WORKER_LINTER : String := "ship-yard/workers/WORKER_LINTER"

def WORKER_TEST_RUNNER : String := "ship-yard/workers/WORKER_TEST_RUNNER"

def WORKER_TRANSPILER : String := "ship-yard/workers/WORKER_TRANSPILER"

def WORKER_WATCHER : String := "ship-yard/workers/WORKER_WATCHER"

/-- Action payloads: a record that may carry a worker id, an error payload,
a goal, or a path, mirroring the `createAction` payload creators. An absent
field is `none`. -/
structure Payload where
  worker : Option String := none
  error : Option String := none
  goal : Option String := none
  path : Option String := none
deriving Repr, DecidableEq

/-- A flux standard action: a `type` tag plus a payload record. -/
structure Action where
  type : String
  payload : Payload := {}
deriving Repr, DecidableEq

/-- The per-worker record held by the registry: `error`, display `name` and
`status`, in the field order of the source object literals. -/
structure WorkerState where
  error : Option String
  name : String
  status : String
deriving Repr, DecidableEq

/-- The registry state: an `Immutable.Map` from worker id to worker record,
embedded as an association list with the source's insertion order. -/
abbrev Registry : Type := List (String × WorkerState)

/-- First-match lookup, the semantics of `Immutable.Map.get`. -/
def lookupWorker : Registry → String → Option WorkerState
  | [], _ => none
  | (k, v) :: rest, key => if k = key then some v else lookupWorker rest key

/-- Replace the value stored at `key` (first occurrence), leaving every
other entry alone: the effect of `Immutable.Map.update` on a present key. -/
def setWorker : Registry → String → WorkerState → Registry
  | [], _, _ => []
  | (k, v) :: rest, key, nv =>
    if k = key then (k, nv) :: rest else (k, v) :: setWorker rest key nv

/-- The key list of a registry state. -/
def registryKeys (st : Registry) : List String := st.map Prod.fst

/-- `initialState` from src/src/state/workers.js: the six workers, each
Offline with a null error. -/
def initialState : Registry :=
  [(WORKER_BUNDLER, ⟨none, "Bundler", OFFLINE⟩),
   (WORKER_DEV_SERVER, ⟨none, "Dev Server", OFFLINE⟩),
   (WORKER_LINTER, ⟨none, "Linter", OFFLINE⟩),
   (WORKER_TEST_RUNNER, ⟨none, "Test Runner", OFFLINE⟩),
   (WORKER_TRANSPILER, ⟨none, "Transpiler", OFFLINE⟩),
   (WORKER_WATCHER, ⟨none, "Watcher", OFFLINE⟩)]

/-- JavaScript truthiness applied by `action.payload.error || null`: an
absent error or an empty string collapses to null. -/
def jsOrNull : Option String → Option String
  | none => none
  | some s => if s = "" then none else some s

/-- `updateStatus(status, state, action)` from src/src/state/workers.js:
`state.update(action.payload.worker, ws => ws.merge(...))`. When the
payload has no worker, or the worker is not a key of the map, the `merge`
call is made on `undefined` and throws, which the embedding reports as
`none`. Otherwise only the addressed entry is replaced, its `error` set to
the action's error-or-null and its `status` to the handler's status. -/
def updateStatus (status : String) (state : Registry) (action : Action) :
    Option Registry :=
  match action.payload.worker with
  | none => none
  | some w =>
    match lookupWorker state w with
    | none => none
    | some ws =>
      some (setWorker state w
        { ws with error := jsOrNull action.payload.error, status := status })

/-- The six status action types handled by the reducer. -/
def statusTypes : List String := [BUSY, DONE, ERROR, OFFLINE, READY, STOP]

/-- The closed set of worker identifiers, in the registry's order. -/
def workerIds : List String :=
  [WORKER_BUNDLER, WORKER_DEV_SERVER, WORKER_LINTER, WORKER_TEST_RUNNER,
   WORKER_TRANSPILER, WORKER_WATCHER]

/-- The default export of src/src/state/workers.js: the `handleActions`
reducer. An undefined incoming state defaults to `initialState`; each of
the six status types dispatches to `updateStatus` bound to that status; any
other action type returns the state unchanged. -/
def workersReducer (state : Option Registry) (action : Action) :
    Option Registry :=
  let s := state.getD initialState
  if action.type = BUSY then updateStatus BUSY s action
  else if action.type = DONE then updateStatus DONE s action
  else if action.type = ERROR then updateStatus ERROR s action
  else if action.type = OFFLINE then updateStatus OFFLINE s action
  else if action.type = READY then updateStatus READY s action
  else if action.type = STOP then updateStatus STOP s action
  else some s

/-- `workerBusy = createAction(BUSY, worker => ({worker}))`. -/
def workerBusy (worker : String) : Action :=
  { type := BUSY, payload := { worker := some worker } }

/-- `workerDone = createAction(DONE, worker => ({worker}))`. -/
def workerDone (worker : String) : Action :=
  { type := DONE, payload := { worker := some worker } }

/-- `workerError = createAction(ERROR, worker => ({worker}))`. The payload
creator takes only the worker; a second (error) argument passed at a call
site is discarded by the creator, so the built action carries no error
field. The embedding keeps the two-argument call shape. -/
def workerError (worker : String) (_error : Option String) : Action :=
  { type := ERROR, payload := { worker := some worker } }

/-- `workerOffline = createAction(OFFLINE, worker => ({worker}))`. -/
def workerOffline (worker : String) : Action :=
  { type := OFFLINE, payload := { worker := some worker } }

/-- `workerReady = createAction(READY, worker => ({worker}))`. -/
def workerReady (worker : String) : Action :=
  { type := READY, payload := { worker := some worker } }

/-- `workerStop = createAction(STOP, worker => ({worker}))`. -/
def workerStop (worker : String) : Action :=
  { type := STOP, payload := { worker := some worker } }

/-! ### Foreman and transpiler action modules

The `state/foreman` and `state/transpiler` modules are not among the
sources at hand (only their importing tests are), so their action shapes
are modelled from the specification. -/

/-- Modelled from the spec: the `SET_GOAL` action type of the missing
`state/foreman` module, through which the Foreman broadcasts the current
goal. The concrete tag string is unobservable; any fixed string distinct
from the six status types works. -/
def SET_GOAL : String := "ship-yard/foreman/SET_GOAL"

/-- Modelled from the spec: the Watch goal constant of the missing
`state/foreman` module. -/
def GOAL_WATCH : String := "ship-yard/foreman/GOAL_WATCH"

/-- Modelled from the spec: the Lint goal constant of the missing
`state/foreman` module. -/
def GOAL_LINT : String := "ship-yard/foreman/GOAL_LINT"

/-- Modelled from the spec: `setGoal(goal)` builds the `SetGoal` action
carrying the goal in its payload. -/
def setGoal (goal : String) : Action :=
  { type := SET_GOAL, payload := { goal := some goal } }

/-- Modelled from the spec: the `TRANSPILE` action type of the missing
`state/transpiler` module (the Transpiler worker's activating command). -/
def TRANSPILE : String := "ship-yard/transpiler/TRANSPILE"

/-- Modelled from the spec: the transpiler's `Done` action type from the
missing `state/transpiler` module. -/
def TRANSPILER_DONE : String := "ship-yard/transpiler/DONE"

/-- Modelled from the spec: `transpile(path)` of the missing
`state/transpiler` module builds the `Transpile` command action carrying
the path. -/
def transpileAction (path : String) : Action :=
  { type := TRANSPILE, payload := { path := some path } }

/-- Modelled from the spec: `done()` of the missing `state/transpiler`
module, the transpiler's completion event. -/
def doneAction : Action := { type := TRANSPILER_DONE }

/-! ### Saga coroutines as suspension-point state machines

The saga modules `sagas/watcher` and `sagas/transpiler` and the relay
helpers of `utils/sagas` are not among the sources at hand (only their
tests are). They are modelled from the specification, section 4.3 and the
scenarios of section 8, as explicit state machines over suspension
points. -/

/-- A value passed into a generator's `next` call: `undefined`, an action,
an array of filename strings, or the opaque process-watcher object
returned by `watchProcess`. -/
inductive JsVal where
  | undef : JsVal
  | act : Action → JsVal
  | strs : List String → JsVal
  | procWatcher : Nat → JsVal
deriving Repr, DecidableEq

/-- A child-process handle as returned by `forkWorker`, carrying the
worker name it was launched under. -/
structure ProcHandle where
  workerName : String
deriving Repr, DecidableEq

/-- Modelled from the spec: `forkWorker(name)` of the missing
`utils/workers` module launches the named worker process and returns its
handle. -/
def forkWorker (name : String) : ProcHandle := ⟨name⟩

/-- Options record handed to the transpilation facility. -/
structure BabelOptions where
  baseDir : String
  filenames : List String
  outDir : String
  sourceMaps : Bool
deriving Repr, DecidableEq

/-- A redux-saga effect yielded by one of the modelled coroutines. The
`call`/`fork` targets are the concrete collaborator functions the sagas
use, one constructor per target. -/
inductive Effect where
  | take : String → Effect
  | put : Action → Effect
  | callWatchProcess : ProcHandle → Effect
  | forkNotifyForeman : JsVal → Effect
  | callGlob : String → Effect
  | callBabelTranspile : BabelOptions → Effect
  | callTranspile : Option String → Effect
  | callSendToForeman : Action → Effect
deriving Repr, DecidableEq

/-- One observable event of a generator run: a child-process fork
performed by plain function call, a yielded redux-saga effect, or the
generator reporting itself done. -/
inductive TraceEvt where
  | forkedProcess : String → TraceEvt
  | yielded : Effect → TraceEvt
  | finished : TraceEvt
deriving Repr, DecidableEq

/-- The goal carried by a resume value, when it is a `SetGoal`-shaped
action. -/
def goalOf : JsVal → Option String
  | .act a => a.payload.goal
  | _ => none

/-- The worker id carried by a resume value, when it is an action. -/
def workerOf : JsVal → Option String
  | .act a => a.payload.worker
  | _ => none

/-- The path carried by a resume value, when it is an action. -/
def pathOf : JsVal → Option String
  | .act a => a.payload.path
  | _ => none

/-- The filename array carried by a resume value. -/
def strsOf : JsVal → List String
  | .strs l => l
  | _ => []

/-- Suspension points of the `startWatcher` coroutine: freshly created, or
suspended at one of its five yields. -/
inductive WatcherPhase where
  | created : WatcherPhase
  | atTakeGoal : WatcherPhase
  | atPutBusy : WatcherPhase
  | atCallWatch : WatcherPhase
  | atForkNotify : WatcherPhase
  | atTakeReady : WatcherPhase
deriving Repr, DecidableEq

/-- Modelled from the spec: one `next(v)` resumption of the missing
`sagas/watcher` module's `startWatcher(getState)` coroutine. The registry
status the coroutine reads for `WORKER_WATCHER` through `getState` is the
parameter `wstatus`. Section 4.3: block for `SetGoal`; a goal outside the
served set (the Watcher serves Watch) or a non-Offline worker re-enters
the watch state with no side effects; an Offline worker is marked busy,
the "watcher" process is forked, `watchProcess` is attached by a yielded
call, `notifyForeman` is spawned by a yielded fork on the process watcher
received, and the coroutine blocks for `READY` actions, ignoring those
addressed to other workers, until its own readiness event sends it back
to blocking for `SetGoal`. The result is the list of observable events of
this resumption and the next suspension point; the machine never reports
done (the coroutine is an unbounded loop). -/
def startWatcherStep (wstatus : Option String) :
    WatcherPhase → JsVal → List TraceEvt × WatcherPhase
  | .created, _ => ([.yielded (.take SET_GOAL)], .atTakeGoal)
  | .atTakeGoal, v =>
    if goalOf v = some GOAL_WATCH then
      if wstatus = some OFFLINE then
        ([.yielded (.put (workerBusy WORKER_WATCHER))], .atPutBusy)
      else
        ([.yielded (.take SET_GOAL)], .atTakeGoal)
    else
      ([.yielded (.take SET_GOAL)], .atTakeGoal)
  | .atPutBusy, _ =>
    ([.forkedProcess "watcher",
      .yielded (.callWatchProcess (forkWorker "watcher"))], .atCallWatch)
  | .atCallWatch, v => ([.yielded (.forkNotifyForeman v)], .atForkNotify)
  | .atForkNotify, _ => ([.yielded (.take READY)], .atTakeReady)
  | .atTakeReady, v =>
    if workerOf v = some WORKER_WATCHER then
      ([.yielded (.take SET_GOAL)], .atTakeGoal)
    else
      ([.yielded (.take READY)], .atTakeReady)

/-- Run the `startWatcher` machine from a phase over a list of resume
values, collecting the trace of observable events. -/
def startWatcherRun (wstatus : Option String) :
    WatcherPhase → List JsVal → List TraceEvt
  | _, [] => []
  | p, v :: rest =>
    let s := startWatcherStep wstatus p v
    s.1 ++ startWatcherRun wstatus s.2 rest

/-- Suspension points of the one-shot `transpile` coroutine. -/
inductive TranspilePhase where
  | created : TranspilePhase
  | atGlob : TranspilePhase
  | atBabel : TranspilePhase
  | atPutDone : TranspilePhase
  | atNotify : TranspilePhase
  | finished : TranspilePhase
deriving Repr, DecidableEq

/-- Modelled from the spec: one `next(v)` resumption of the missing
`sagas/transpiler` module's `transpile` coroutine (Scenario C). It yields
a call to the globber with pattern `src/**/*.js?(x)`; with the filenames
received it yields a call to the transpilation facility with base
directory `src`, those filenames, output directory `build` and source
maps on; then it yields `put(done())`, then a call sending
`workerDone(WORKER_TRANSPILER)` to the Foreman, and then terminates:
one-shot, not a loop. -/
def transpileStep : TranspilePhase → JsVal → List TraceEvt × TranspilePhase
  | .created, _ => ([.yielded (.callGlob "src/**/*.js?(x)")], .atGlob)
  | .atGlob, v =>
    ([.yielded (.callBabelTranspile
      { baseDir := "src", filenames := strsOf v, outDir := "build",
        sourceMaps := true })], .atBabel)
  | .atBabel, _ => ([.yielded (.put doneAction)], .atPutDone)
  | .atPutDone, _ =>
    ([.yielded (.callSendToForeman (workerDone WORKER_TRANSPILER))],
     .atNotify)
  | .atNotify, _ => ([.finished], .finished)
  | .finished, _ => ([.finished], .finished)

/-- Run the `transpile` machine from a phase over a list of resume
values, collecting the trace. -/
def transpileRun : TranspilePhase → List JsVal → List TraceEvt
  | _, [] => []
  | p, v :: rest =>
    let s := transpileStep p v
    s.1 ++ transpileRun s.2 rest

/-- Suspension points of the `initTranspiler` coroutine. -/
inductive InitTranspilerPhase where
  | created : InitTranspilerPhase
  | atTake : InitTranspilerPhase
  | atCall : InitTranspilerPhase
deriving Repr, DecidableEq

/-- Modelled from the spec: one `next(v)` resumption of the missing
`sagas/transpiler` module's default-export `initTranspiler` coroutine. It
blocks for a `TRANSPILE` action, yields a call of `transpile` on the
received action's path, and blocks for `TRANSPILE` again, looping without
end. -/
def initTranspilerStep :
    InitTranspilerPhase → JsVal → List TraceEvt × InitTranspilerPhase
  | .created, _ => ([.yielded (.take TRANSPILE)], .atTake)
  | .atTake, v => ([.yielded (.callTranspile (pathOf v))], .atCall)
  | .atCall, _ => ([.yielded (.take TRANSPILE)], .atTake)

/-- Run the `initTranspiler` machine from a phase over a list of resume
values, collecting the trace. -/
def initTranspilerRun : InitTranspilerPhase → List JsVal → List TraceEvt
  | _, [] => []
  | p, v :: rest =>
    let s := initTranspilerStep p v
    s.1 ++ initTranspilerRun s.2 rest

/-- Whether a trace event is not a termination report. -/
def notFinished : TraceEvt → Bool
  | .finished => false
  | _ => true

/-! ### Helper lemmas about the registry operations -/

/-- Replacing the entry at one key leaves lookups of every other key
unchanged. -/
theorem lookupWorker_setWorker_ne (key k : String) (nv : WorkerState)
    (h : k ≠ key) (st : Registry) :
    lookupWorker (setWorker st key nv) k = lookupWorker st k := by
  induction st with
  | nil => rfl
  | cons e rest ih =>
    obtain ⟨ek, ev⟩ := e
    by_cases h1 : ek = key
    · subst h1
      simp [setWorker, lookupWorker, Ne.symm h]
    · by_cases h3 : ek = k
      · subst h3
        simp [setWorker, lookupWorker, h1]
      · simp [setWorker, lookupWorker, h1, h3, ih]

/-- Replacing the entry at a present key makes its lookup return the new
value. -/
theorem lookupWorker_setWorker_self (key : String) (nv : WorkerState)
    (st : Registry) (h : ∃ ws, lookupWorker st key = some ws) :
    lookupWorker (setWorker st key nv) key = some nv := by
  induction st with
  | nil => simp [lookupWorker] at h
  | cons e rest ih =>
    obtain ⟨ek, ev⟩ := e
    by_cases h1 : ek = key
    · subst h1
      simp [setWorker, lookupWorker]
    · obtain ⟨ws, hws⟩ := h
      simp only [lookupWorker, if_neg h1] at hws
      simp [setWorker, lookupWorker, h1, ih ⟨ws, hws⟩]

/-- `setWorker` never changes the key list. -/
theorem registryKeys_setWorker (key : String) (nv : WorkerState)
    (st : Registry) :
    registryKeys (setWorker st key nv) = registryKeys st := by
  induction st with
  | nil => rfl
  | cons e rest ih =>
    obtain ⟨ek, ev⟩ := e
    by_cases h1 : ek = key
    · subst h1
      simp [setWorker, registryKeys]
    · simp only [registryKeys, List.map_cons] at ih ⊢
      simp [setWorker, h1, ih]

/-- A key of the registry has a stored record. -/
theorem lookupWorker_isSome_of_mem (key : String) (st : Registry)
    (h : key ∈ registryKeys st) : ∃ ws, lookupWorker st key = some ws := by
  induction st with
  | nil => simp [registryKeys] at h
  | cons e rest ih =>
    obtain ⟨ek, ev⟩ := e
    by_cases h1 : ek = key
    · subst h1
      exact ⟨ev, by simp [lookupWorker]⟩
    · simp only [registryKeys, List.map_cons, List.mem_cons] at h
      rcases h with h | h
      · exact absurd h.symm h1
      · obtain ⟨ws, hws⟩ := ih h
        exact ⟨ws, by simp [lookupWorker, h1, hws]⟩

/-- A successful `updateStatus` names a present worker and replaces
exactly its entry. -/
theorem updateStatus_eq_some (stat : String) (st : Registry) (a : Action)
    (st' : Registry) (h : updateStatus stat st a = some st') :
    ∃ w ws, a.payload.worker = some w ∧ lookupWorker st w = some ws ∧
      st' = setWorker st w
        { ws with error := jsOrNull a.payload.error, status := stat } := by
  cases hw : a.payload.worker with
  | none => simp [updateStatus, hw] at h
  | some w =>
    cases hl : lookupWorker st w with
    | none => simp [updateStatus, hw, hl] at h
    | some ws =>
      refine ⟨w, ws, rfl, hl, ?_⟩
      simp only [updateStatus, hw, hl] at h
      exact (Option.some.inj h).symm

/-- On a status-typed action the reducer is `updateStatus` bound to the
action's own type. -/
theorem workersReducer_eq_updateStatus (st : Registry) (a : Action)
    (h : a.type ∈ statusTypes) :
    workersReducer (some st) a = updateStatus a.type st a := by
  simp only [statusTypes, List.mem_cons, List.not_mem_nil, or_false] at h
  rcases h with h | h | h | h | h | h <;>
    simp [workersReducer, h, BUSY, DONE, ERROR, OFFLINE, READY, STOP]

/-- On any action whose type is not a status type, the reducer returns the
incoming state, defaulted to `initialState`. -/
theorem workersReducer_of_not_status (stOpt : Option Registry) (a : Action)
    (h : a.type ∉ statusTypes) :
    workersReducer stOpt a = some (stOpt.getD initialState) := by
  simp only [statusTypes, List.mem_cons, List.not_mem_nil, or_false,
    not_or] at h
  obtain ⟨h1, h2, h3, h4, h5, h6⟩ := h
  simp [workersReducer, h1, h2, h3, h4, h5, h6]

/-! ### Claim theorems -/

/-- Claim C1: with the Watcher registered Offline, the `startWatcher`
controller reacting to `SetGoal(Watch)` produces, in order: the
`WorkerBusy(Watcher)` publication, the fork of the "watcher" process, the
yielded `watchProcess` call on that process, the spawn of `notifyForeman`
on the received process watcher, and the blocking `take(READY)`; and on
`WorkerReady(Watcher)` it returns to blocking on the next `SET_GOAL`. -/
theorem startWatcher_launch_sequence (wstatus : Option String) (pw : JsVal)
    (h : wstatus = some OFFLINE) :
    startWatcherRun wstatus .created
      [.undef, .act (setGoal GOAL_WATCH), .undef, pw, .undef,
       .act (workerReady WORKER_WATCHER)] =
    [.yielded (.take SET_GOAL),
     .yielded (.put (workerBusy WORKER_WATCHER)),
     .forkedProcess "watcher",
     .yielded (.callWatchProcess (forkWorker "watcher")),
     .yielded (.forkNotifyForeman pw),
     .yielded (.take READY),
     .yielded (.take SET_GOAL)] := by
  subst h
  rfl

/-- Concrete instance of the launch-sequence theorem at the Offline status
and an opaque process watcher. -/
theorem startWatcher_launch_sequence_witness :
    startWatcherRun (some OFFLINE) .created
      [.undef, .act (setGoal GOAL_WATCH), .undef, .procWatcher 0, .undef,
       .act (workerReady WORKER_WATCHER)] =
    [.yielded (.take SET_GOAL),
     .yielded (.put (workerBusy WORKER_WATCHER)),
     .forkedProcess "watcher",
     .yielded (.callWatchProcess (forkWorker "watcher")),
     .yielded (.forkNotifyForeman (.procWatcher 0)),
     .yielded (.take READY),
     .yielded (.take SET_GOAL)] :=
  startWatcher_launch_sequence (some OFFLINE) (.procWatcher 0) rfl

/-- Claim C2: a `SetGoal` for an unserved goal, or while the worker is not
Offline, publishes nothing, forks nothing, and re-enters the blocking wait
for the next `SET_GOAL`. -/
theorem startWatcher_goal_noop (wstatus : Option String) (v : JsVal)
    (h : goalOf v ≠ some GOAL_WATCH ∨ wstatus ≠ some OFFLINE) :
    startWatcherStep wstatus .atTakeGoal v =
      ([.yielded (.take SET_GOAL)], .atTakeGoal) := by
  rcases h with h | h
  · simp [startWatcherStep, h]
  · by_cases hg : goalOf v = some GOAL_WATCH
    · simp [startWatcherStep, hg, h]
    · simp [startWatcherStep, hg]

/-- Concrete instance of the no-op theorem: `SetGoal(Watch)` while the
Watcher is Busy re-enters the wait. -/
theorem startWatcher_goal_noop_witness :
    startWatcherStep (some BUSY) .atTakeGoal (.act (setGoal GOAL_WATCH)) =
      ([.yielded (.take SET_GOAL)], .atTakeGoal) :=
  startWatcher_goal_noop (some BUSY) (.act (setGoal GOAL_WATCH))
    (Or.inr (by decide))

/-- Claim C3: while blocked awaiting readiness, a `WorkerReady` or
`WorkerDone` addressed to a different worker re-enters the same
`take(READY)` wait unchanged. -/
theorem startWatcher_ready_filter (wstatus : Option String) (w : String)
    (h : w ≠ WORKER_WATCHER) :
    startWatcherStep wstatus .atTakeReady (.act (workerReady w)) =
      ([.yielded (.take READY)], .atTakeReady) ∧
    startWatcherStep wstatus .atTakeReady (.act (workerDone w)) =
      ([.yielded (.take READY)], .atTakeReady) := by
  constructor <;>
    simp [startWatcherStep, workerOf, workerReady, workerDone, h]

/-- Concrete instance of the readiness filter: `WorkerReady(Linter)` and
`WorkerDone(Linter)` leave the Watcher controller blocked. -/
theorem startWatcher_ready_filter_witness :
    startWatcherStep (some OFFLINE) .atTakeReady
        (.act (workerReady WORKER_LINTER)) =
      ([.yielded (.take READY)], .atTakeReady) ∧
    startWatcherStep (some OFFLINE) .atTakeReady
        (.act (workerDone WORKER_LINTER)) =
      ([.yielded (.take READY)], .atTakeReady) :=
  startWatcher_ready_filter (some OFFLINE) WORKER_LINTER (by decide)

/-- Claim C4: invoked directly, the `transpile` saga yields the glob call
on `src/**/*.js?(x)`, then the transpilation call on the received
filenames with base directory `src`, output directory `build` and source
maps on, then `put(done())`, then the foreman notification carrying
`workerDone(WORKER_TRANSPILER)`, and then terminates for good: it is
one-shot, not a loop. -/
theorem transpile_direct_sequence :
    (∀ filenames : List String,
      transpileRun .created [.undef, .strs filenames, .undef, .undef, .undef] =
      [.yielded (.callGlob "src/**/*.js?(x)"),
       .yielded (.callBabelTranspile
         { baseDir := "src", filenames := filenames, outDir := "build",
           sourceMaps := true }),
       .yielded (.put doneAction),
       .yielded (.callSendToForeman (workerDone WORKER_TRANSPILER)),
       .finished]) ∧
    (∀ v : JsVal, transpileStep .finished v = ([.finished], .finished)) :=
  ⟨fun _ => rfl, fun _ => rfl⟩

/-- Claim C5: a status-change action addressed to worker `w` leaves the
stored record of every other worker unchanged and leaves `w`'s display
name unchanged. -/
theorem workersReducer_frame (st : Registry) (a : Action) (w : String)
    (st' : Registry) (hty : a.type ∈ statusTypes)
    (hw : a.payload.worker = some w)
    (hred : workersReducer (some st) a = some st') :
    (∀ k, k ≠ w → lookupWorker st' k = lookupWorker st k) ∧
    (lookupWorker st' w).map WorkerState.name =
      (lookupWorker st w).map WorkerState.name := by
  rw [workersReducer_eq_updateStatus st a hty] at hred
  obtain ⟨w', ws, hw', hl, hst'⟩ := updateStatus_eq_some _ _ _ _ hred
  rw [hw] at hw'
  injection hw' with hww
  subst hww
  subst hst'
  constructor
  · intro k hk
    exact lookupWorker_setWorker_ne w k _ hk st
  · rw [lookupWorker_setWorker_self w _ st ⟨ws, hl⟩, hl]
    rfl

/-- Concrete instance of the frame theorem: marking the Watcher busy in
the initial registry leaves the Linter's record and the Watcher's name
untouched. -/
theorem workersReducer_frame_witness :
    (workerBusy WORKER_WATCHER).type ∈ statusTypes ∧
    (workerBusy WORKER_WATCHER).payload.worker = some WORKER_WATCHER ∧
    workersReducer (some initialState) (workerBusy WORKER_WATCHER) =
      some (setWorker initialState WORKER_WATCHER ⟨none, "Watcher", BUSY⟩) ∧
    lookupWorker
        (setWorker initialState WORKER_WATCHER ⟨none, "Watcher", BUSY⟩)
        WORKER_LINTER =
      lookupWorker initialState WORKER_LINTER ∧
    (lookupWorker
        (setWorker initialState WORKER_WATCHER ⟨none, "Watcher", BUSY⟩)
        WORKER_WATCHER).map WorkerState.name =
      (lookupWorker initialState WORKER_WATCHER).map WorkerState.name :=
  ⟨by decide, rfl, rfl,
   (workersReducer_frame initialState (workerBusy WORKER_WATCHER)
     WORKER_WATCHER _ (by decide) rfl rfl).1 WORKER_LINTER (by decide),
   (workersReducer_frame initialState (workerBusy WORKER_WATCHER)
     WORKER_WATCHER _ (by decide) rfl rfl).2⟩

/-- Claim C6, evaluated on the code: `workerError`'s payload creator
discards the error argument, so applying `workerError(Watcher, "boom")` to
the initial registry records status Error with a null error field — the
error payload is not stored. -/
theorem workerError_discards_payload :
    (workerError WORKER_WATCHER (some "boom")).payload.error = none ∧
    (workersReducer (some initialState)
        (workerError WORKER_WATCHER (some "boom"))).bind
      (fun st => lookupWorker st WORKER_WATCHER) =
      some ⟨none, "Watcher", ERROR⟩ :=
  ⟨rfl, rfl⟩

/-- Claim C7: the initial registry has exactly the six workers as keys,
each stored Offline with a null error and its display name. -/
theorem initialState_offline :
    registryKeys initialState = workerIds ∧
    lookupWorker initialState WORKER_BUNDLER =
      some ⟨none, "Bundler", OFFLINE⟩ ∧
    lookupWorker initialState WORKER_DEV_SERVER =
      some ⟨none, "Dev Server", OFFLINE⟩ ∧
    lookupWorker initialState WORKER_LINTER =
      some ⟨none, "Linter", OFFLINE⟩ ∧
    lookupWorker initialState WORKER_TEST_RUNNER =
      some ⟨none, "Test Runner", OFFLINE⟩ ∧
    lookupWorker initialState WORKER_TRANSPILER =
      some ⟨none, "Transpiler", OFFLINE⟩ ∧
    lookupWorker initialState WORKER_WATCHER =
      some ⟨none, "Watcher", OFFLINE⟩ :=
  ⟨rfl, rfl, rfl, rfl, rfl, rfl, rfl⟩

/-- Claim C8: applying the reducer to an action addressing one of the six
worker identifiers, from a state whose keys are exactly those six, yields
a state whose keys are still exactly those six. -/
theorem workersReducer_preserves_keys (st : Registry) (a : Action)
    (w : String) (hkeys : registryKeys st = workerIds)
    (hw : a.payload.worker = some w) (hmem : w ∈ workerIds) :
    ∃ st', workersReducer (some st) a = some st' ∧
      registryKeys st' = workerIds := by
  by_cases hty : a.type ∈ statusTypes
  · rw [workersReducer_eq_updateStatus st a hty]
    have hpres : w ∈ registryKeys st := hkeys ▸ hmem
    obtain ⟨ws, hws⟩ := lookupWorker_isSome_of_mem w st hpres
    refine ⟨setWorker st w
      { ws with error := jsOrNull a.payload.error, status := a.type },
      ?_, ?_⟩
    · simp [updateStatus, hw, hws]
    · rw [registryKeys_setWorker, hkeys]
  · exact ⟨st, workersReducer_of_not_status (some st) a hty, hkeys⟩

/-- Concrete instance of key preservation: stopping the Bundler in the
initial registry keeps the six keys. -/
theorem workersReducer_preserves_keys_witness :
    registryKeys initialState = workerIds ∧
    (workerStop WORKER_BUNDLER).payload.worker = some WORKER_BUNDLER ∧
    WORKER_BUNDLER ∈ workerIds ∧
    ∃ st', workersReducer (some initialState) (workerStop WORKER_BUNDLER) =
      some st' ∧ registryKeys st' = workerIds :=
  ⟨rfl, rfl, by decide,
   workersReducer_preserves_keys initialState (workerStop WORKER_BUNDLER)
     WORKER_BUNDLER rfl rfl (by decide)⟩

/-- Claim C9: an action whose type is none of the six status constants
leaves any state unchanged, and an undefined incoming state comes back as
`initialState`. -/
theorem workersReducer_unhandled (a : Action) (h : a.type ∉ statusTypes) :
    (∀ st : Registry, workersReducer (some st) a = some st) ∧
    workersReducer none a = some initialState :=
  ⟨fun st => workersReducer_of_not_status (some st) a h,
   workersReducer_of_not_status none a h⟩

/-- Concrete instance of the unhandled-action theorem at an unrelated
action type. -/
theorem workersReducer_unhandled_witness :
    (Action.mk "ship-yard/other/PING" {}).type ∉ statusTypes ∧
    workersReducer (some initialState) (Action.mk "ship-yard/other/PING" {}) =
      some initialState ∧
    workersReducer none (Action.mk "ship-yard/other/PING" {}) =
      some initialState :=
  ⟨by decide,
   (workersReducer_unhandled (Action.mk "ship-yard/other/PING" {})
     (by decide)).1 initialState,
   (workersReducer_unhandled (Action.mk "ship-yard/other/PING" {})
     (by decide)).2⟩

/-- Claim C10: `initTranspiler` blocks for `TRANSPILE`, calls `transpile`
on the received action's path, blocks for `TRANSPILE` again, and never
reports itself done on any input sequence from any suspension point. -/
theorem initTranspiler_unbounded_loop :
    (∀ path : String,
      initTranspilerRun .created [.undef, .act (transpileAction path), .undef] =
      [.yielded (.take TRANSPILE), .yielded (.callTranspile (some path)),
       .yielded (.take TRANSPILE)]) ∧
    (∀ (p : InitTranspilerPhase) (inputs : List JsVal),
      (initTranspilerRun p inputs).all notFinished = true) := by
  constructor
  · intro path
    rfl
  · intro p inputs
    induction inputs generalizing p with
    | nil => rfl
    | cons v rest ih =>
      cases p <;>
        simp [initTranspilerRun, initTranspilerStep, notFinished, ih]

end ShipYard
